import Mathlib

/-!
# Verification of the GFF column codecs (src/main.rs)

A shallow embedding of the rust-bio-gff-csv-poc program: the three column
codecs (`serde_strand`, `serde_score`, `serde_frame`), the 9-field `Record`,
the csv-backed `reader` over the embedded `GFF_FILE` fixture, and the csv
writer's per-record serialization.  Machine floats are modelled by `F64`
(exact rationals plus the non-finite values); the parts of the third-party
`csv`/`serde`/`ryu` libraries that the program exercises are embedded at the
level of their documented behaviour on the inputs that occur here.
-/

deriving instance DecidableEq for Except

/-- The strand of a feature (src/main.rs, `enum Strand`). -/
inductive Strand where
  | Forward
  | Reverse
  | Unknown
deriving DecidableEq

/-- Decode-side errors, following the spec's error taxonomy; each constructor
carries the offending text or counts, mirroring the information in the
`E::custom` messages of src/main.rs and the csv reader's errors.
`invalidLength i` is serde's missing-field error raised when the fields of a
line run out at struct field index `i`; `unequalLengths` is the csv reader's
error for a record whose field count differs from the first record's. -/
inductive DecodeError where
  | invalidStrand (text : String)
  | invalidScore (text : String)
  | invalidFrame (text : String)
  | invalidUInt (text : String)
  | invalidLength (index : Nat)
  | unequalLengths (expected actual : Nat)
deriving DecidableEq

/-- Encode-side error of `serde_frame::serialize` (src/main.rs line 198:
`Err(ser::Error::custom(format!(...)))` for an out-of-range frame). -/
inductive EncodeError where
  | invalidFrame (value : Nat)
deriving DecidableEq

/-- `StrandVisitor::visit_char` (src/main.rs lines 31-45): the permissive
read-side alphabet of the strand column.  `'.'` decodes to `none` (absent). -/
def strandVisitChar (c : Char) : Except DecodeError (Option Strand) :=
  if c = '+' ∨ c = 'f' ∨ c = 'F' then .ok (some Strand.Forward)
  else if c = '-' ∨ c = 'r' ∨ c = 'R' then .ok (some Strand.Reverse)
  else if c = '?' then .ok (some Strand.Unknown)
  else if c = '.' then .ok none
  else .error (.invalidStrand (String.mk [c]))

/-- `serde_strand::deserialize` as invoked by the csv deserializer's
`deserialize_char`: the raw field must be exactly one character, which is then
passed to `StrandVisitor::visit_char`. -/
def decode_strand (s : String) : Except DecodeError (Option Strand) :=
  match s.data with
  | [c] => strandVisitChar c
  | _ => .error (.invalidStrand s)

/-- `serde_strand::serialize` (src/main.rs lines 55-65): canonical write-side
form; both `Unknown` and the absent state emit `"."`. -/
def encode_strand : Option Strand → String
  | some Strand.Forward => "+"
  | some Strand.Reverse => "-"
  | some Strand.Unknown => "."
  | none => "."

/-- `FrameVisitor::visit_char` (src/main.rs lines 166-180). -/
def frameVisitChar (c : Char) : Except DecodeError (Option Nat) :=
  if c = '0' then .ok (some 0)
  else if c = '1' then .ok (some 1)
  else if c = '2' then .ok (some 2)
  else if c = '.' then .ok none
  else .error (.invalidFrame (String.mk [c]))

/-- `serde_frame::deserialize` via the csv deserializer's `deserialize_char`. -/
def decode_frame (s : String) : Except DecodeError (Option Nat) :=
  match s.data with
  | [c] => frameVisitChar c
  | _ => .error (.invalidFrame s)

/-- `serde_frame::serialize` (src/main.rs lines 190-202), verbatim: the range
check is `0 < v && v < 3`, and on success the code calls
`serializer.serialize_u64(0)`, so the emitted field text is the constant
`"0"`. -/
def encode_frame : Option Nat → Except EncodeError String
  | some v => if 0 < v ∧ v < 3 then .ok "0" else .error (.invalidFrame v)
  | none => .ok "."

/-- Model of Rust's `f64` values as far as this program can observe them:
finite values are carried exactly as rationals (every finite double is a
dyadic rational; no claim here depends on binary rounding), plus the three
non-finite values. -/
inductive F64 where
  | finite (q : ℚ)
  | inf
  | negInf
  | nan
deriving DecidableEq

/-- ASCII digit test, as in Rust's float grammar. -/
def isAsciiDigit (c : Char) : Bool := '0' ≤ c && c ≤ '9'

/-- Numeric value of a digit string (most significant first). -/
def digitsVal (cs : List Char) : Nat :=
  cs.foldl (fun a c => 10 * a + (c.toNat - 48)) 0

/-- ASCII lowercasing, as used by Rust's case-insensitive match of the
`inf`/`infinity`/`nan` keywords in `f64::from_str`. -/
def toLowerAscii (c : Char) : Char :=
  if 'A' ≤ c && c ≤ 'Z' then Char.ofNat (c.toNat + 32) else c

/-- Strip one optional leading sign; returns whether it was `'-'`. -/
def stripSign : List Char → Bool × List Char
  | '+' :: r => (false, r)
  | '-' :: r => (true, r)
  | cs => (false, cs)

/-- Exponent digits: `Digit+`, valued. -/
def parseExpDigits (cs : List Char) : Option Nat :=
  if !cs.isEmpty && cs.all isAsciiDigit then some (digitsVal cs) else none

/-- Exponent body after `e`/`E`: `Sign? Digit+`, valued. -/
def parseExp (cs : List Char) : Option ℤ :=
  match cs with
  | [] => none
  | c :: r =>
    if c = '+' then (parseExpDigits r).map Int.ofNat
    else if c = '-' then (parseExpDigits r).map fun n => -Int.ofNat n
    else (parseExpDigits (c :: r)).map Int.ofNat

/-- Optional exponent part: empty, or `('e'|'E') Sign? Digit+`. -/
def parseExpOpt (cs : List Char) : Option ℤ :=
  match cs with
  | [] => some 0
  | c :: r => if c = 'e' ∨ c = 'E' then parseExp r else none

/-- Multiply a rational by a signed power of ten. -/
def timesPow10 (q : ℚ) (e : ℤ) : ℚ :=
  if 0 ≤ e then q * (10 : ℚ) ^ e.toNat else q / (10 : ℚ) ^ (-e).toNat

/-- The unsigned-number part of Rust's `f64::from_str` grammar
(`Digit+ | Digit+ '.' Digit* | Digit* '.' Digit+`, then an optional
exponent), applied after the leading digits `d1` have been split off;
`rest` is the remainder of the input. -/
def parseNumberTail (d1 : List Char) (rest : List Char) : Option ℚ :=
  match rest with
  | c :: r2 =>
    if c = '.' then
      let d2 := r2.takeWhile isAsciiDigit
      let r3 := r2.dropWhile isAsciiDigit
      if d1.isEmpty && d2.isEmpty then none
      else (parseExpOpt r3).map fun e =>
        timesPow10 ((digitsVal d1 : ℚ) + (digitsVal d2 : ℚ) / (10 : ℚ) ^ d2.length) e
    else
      if d1.isEmpty then none
      else (parseExpOpt (c :: r2)).map fun e => timesPow10 (digitsVal d1 : ℚ) e
  | [] => if d1.isEmpty then none else some (digitsVal d1 : ℚ)

/-- The unsigned-number part of the grammar on a whole character list. -/
def parseNumber (cs : List Char) : Option ℚ :=
  parseNumberTail (cs.takeWhile isAsciiDigit) (cs.dropWhile isAsciiDigit)

/-- Rust's `str::parse::<f64>` as called by `ScoreVisitor::visit_str`
(src/main.rs line 108): `Sign? ( 'inf' | 'infinity' | 'nan' | Number )`, the
three keywords matched case-insensitively. -/
def parseF64 (s : String) : Option F64 :=
  let sp := stripSign s.data
  let low := sp.2.map toLowerAscii
  if low = "inf".data ∨ low = "infinity".data then
    some (if sp.1 then F64.negInf else F64.inf)
  else if low = "nan".data then some F64.nan
  else (parseNumber sp.2).map fun q => F64.finite (if sp.1 then -q else q)

/-- `ScoreVisitor::visit_str` (src/main.rs lines 101-112): `"."` is the
absent sentinel, otherwise the field is parsed as an `f64`. -/
def decode_score (s : String) : Except DecodeError (Option F64) :=
  if s = "." then .ok none
  else
    match parseF64 s with
    | some v => .ok (some v)
    | none => .error (.invalidScore s)

/-- Spec-side recognizer of a signed digit run `Sign? Digit+`. -/
def specSignedDigits (cs : List Char) : Bool :=
  match cs with
  | [] => false
  | d :: r2 =>
    if d = '+' ∨ d = '-' then !r2.isEmpty && r2.all isAsciiDigit
    else !cs.isEmpty && cs.all isAsciiDigit

/-- Spec-side recognizer of the exponent part, following the spec's words
"optionally exponent form" with Rust's literal grammar
`(('e'|'E') Sign? Digit+)?`.  Recognizer only — compared against the valued
parser `parseExpOpt` below. -/
def specExpPart (cs : List Char) : Bool :=
  match cs with
  | [] => true
  | c :: r => if c = 'e' ∨ c = 'E' then specSignedDigits r else false

/-- Spec-side recognizer of the mantissa-and-exponent part after the sign:
`(Digit+ | Digit+ '.' Digit* | Digit* '.' Digit+) Exp?`. -/
def specNumberPart (cs : List Char) : Bool :=
  let d1 := cs.takeWhile isAsciiDigit
  match cs.dropWhile isAsciiDigit with
  | c :: r2 =>
    if c = '.' then
      (!(d1.isEmpty && (r2.takeWhile isAsciiDigit).isEmpty)) &&
        specExpPart (r2.dropWhile isAsciiDigit)
    else (!d1.isEmpty) && specExpPart (c :: r2)
  | [] => !d1.isEmpty

/-- Refinement-side definition following the spec's words: a syntactically
valid 64-bit floating-point literal "in standard decimal notation (optionally
exponent form)" — an optional sign, then digits with an optional point, then
an optional exponent.  This deliberately excludes the `inf`/`infinity`/`nan`
keyword spellings. -/
def specDecimalFloatLit (s : String) : Bool :=
  specNumberPart (stripSign s.data).2

/-- The keyword spellings accepted by Rust's `f64` parser but outside the
spec's "standard decimal notation": an optional sign followed by a
case-insensitive `inf`, `infinity` or `nan`. -/
def specialFloatLit (s : String) : Bool :=
  let low := (stripSign s.data).2.map toLowerAscii
  low == "inf".data || low == "infinity".data || low == "nan".data

theorem parseExpDigits_isSome (cs : List Char) :
    (parseExpDigits cs).isSome = (!cs.isEmpty && cs.all isAsciiDigit) := by
  by_cases h : !cs.isEmpty && cs.all isAsciiDigit <;> simp [parseExpDigits, h]

theorem isSome_map {α β : Type} (f : α → β) (o : Option α) :
    (o.map f).isSome = o.isSome := by
  cases o <;> rfl

theorem parseExp_isSome (cs : List Char) :
    (parseExp cs).isSome = specSignedDigits cs := by
  match cs with
  | [] => rfl
  | d :: r2 =>
    rw [parseExp, specSignedDigits]
    by_cases hd1 : d = '+'
    · rw [if_pos hd1, if_pos (Or.inl hd1), isSome_map, parseExpDigits_isSome]
    · by_cases hd2 : d = '-'
      · rw [if_neg hd1, if_pos hd2, if_pos (Or.inr hd2), isSome_map,
          parseExpDigits_isSome]
      · rw [if_neg hd1, if_neg hd2, if_neg (show ¬(d = '+' ∨ d = '-') by
          tauto), isSome_map, parseExpDigits_isSome]

theorem parseExpOpt_isSome (cs : List Char) :
    (parseExpOpt cs).isSome = specExpPart cs := by
  match cs with
  | [] => rfl
  | c :: r =>
    rw [parseExpOpt, specExpPart]
    by_cases hc : c = 'e' ∨ c = 'E'
    · rw [if_pos hc, if_pos hc, parseExp_isSome]
    · rw [if_neg hc, if_neg hc]
      rfl

theorem parseNumberTail_isSome (d1 rest : List Char) :
    (parseNumberTail d1 rest).isSome =
      (match rest with
       | c :: r2 =>
         if c = '.' then
           (!(d1.isEmpty && (r2.takeWhile isAsciiDigit).isEmpty)) &&
             specExpPart (r2.dropWhile isAsciiDigit)
         else (!d1.isEmpty) && specExpPart (c :: r2)
       | [] => !d1.isEmpty) := by
  match rest with
  | [] => by_cases h : d1.isEmpty <;> simp [parseNumberTail, h]
  | c :: r2 =>
    by_cases hc : c = '.'
    · by_cases hb : d1.isEmpty && (r2.takeWhile isAsciiDigit).isEmpty
      · simp [parseNumberTail, hc, hb]
      · simp [parseNumberTail, hc, hb, parseExpOpt_isSome]
    · by_cases hd : d1.isEmpty
      · simp [parseNumberTail, hc, hd]
      · simp [parseNumberTail, hc, hd, parseExpOpt_isSome]

theorem parseNumber_isSome (cs : List Char) :
    (parseNumber cs).isSome = specNumberPart cs := by
  rw [parseNumber, parseNumberTail_isSome, specNumberPart]

/-- Claim C7 fails as stated: `"inf"` is not a decimal floating-point
literal, yet the score decoder succeeds on it instead of returning an
invalid-score error. -/
theorem gff_C7_cex :
    specDecimalFloatLit "inf" = false ∧
    decode_score "inf" = .ok (some F64.inf) := by
  decide

/-- Spec-side: the non-finite value corresponding to a signed
case-insensitive `inf`/`infinity`/`nan` spelling — a `nan` spelling denotes
NaN, an `inf`/`infinity` spelling denotes the infinity of its sign. -/
def specSpecialValue (s : String) : F64 :=
  let sp := stripSign s.data
  if sp.2.map toLowerAscii = "nan".data then F64.nan
  else if sp.1 then F64.negInf else F64.inf

/-- Claim C7 amended: the score decoder returns `none` for `"."`, a present
value for EVERY decimal floating-point literal (e.g. `some 50` for `"50"`),
the corresponding non-finite value for EVERY signed case-insensitive
`inf`/`infinity`/`nan` spelling (which Rust's `f64` parser also accepts), and
an invalid-score error for every other text. -/
theorem gff_C7_score_decode :
    decode_score "." = .ok none ∧
    decode_score "50" = .ok (some (F64.finite 50)) ∧
    decode_score "abc" = .error (.invalidScore "abc") ∧
    (∀ s : String, specDecimalFloatLit s = true →
      ∃ v : F64, decode_score s = .ok (some v)) ∧
    (∀ s : String, specialFloatLit s = true →
      decode_score s = .ok (some (specSpecialValue s))) ∧
    (∀ s : String, s ≠ "." →
      specDecimalFloatLit s = false → specialFloatLit s = false →
      decode_score s = .error (.invalidScore s)) := by
  refine ⟨by decide, by decide, by decide, ?_, ?_, ?_⟩
  · intro s hdec
    have hdot : s ≠ "." := by
      intro he
      rw [he] at hdec
      exact absurd hdec (by decide)
    rw [decode_score, if_neg hdot, parseF64]
    by_cases h1 : List.map toLowerAscii (stripSign s.data).2 = "inf".data ∨
        List.map toLowerAscii (stripSign s.data).2 = "infinity".data
    · rw [if_pos h1]
      exact ⟨_, rfl⟩
    · rw [if_neg h1]
      by_cases h2 : List.map toLowerAscii (stripSign s.data).2 = "nan".data
      · rw [if_pos h2]
        exact ⟨F64.nan, rfl⟩
      · rw [if_neg h2]
        have h3 : (parseNumber (stripSign s.data).2).isSome = true := by
          rw [parseNumber_isSome]
          exact hdec
        cases hq : parseNumber (stripSign s.data).2 with
        | none =>
          rw [hq] at h3
          simp at h3
        | some q =>
          exact ⟨_, rfl⟩
  · intro s hsp
    have hdot : s ≠ "." := by
      intro he
      rw [he] at hsp
      exact absurd hsp (by decide)
    simp only [specialFloatLit, Bool.or_eq_true, beq_iff_eq] at hsp
    rw [decode_score, if_neg hdot, parseF64, specSpecialValue]
    rcases hsp with (h | h) | h
    · rw [if_pos (Or.inl h), if_neg (show ¬List.map toLowerAscii
        (stripSign s.data).2 = "nan".data by rw [h]; decide)]
    · rw [if_pos (Or.inr h), if_neg (show ¬List.map toLowerAscii
        (stripSign s.data).2 = "nan".data by rw [h]; decide)]
    · rw [if_neg (show ¬(List.map toLowerAscii (stripSign s.data).2 =
        "inf".data ∨ List.map toLowerAscii (stripSign s.data).2 =
        "infinity".data) by rw [h]; decide), if_pos h, if_pos h]
  · intro s hdot hdec hsp
    have hnone : parseF64 s = none := by
      rw [parseF64]
      simp only [specialFloatLit, Bool.or_eq_false_iff, beq_eq_false_iff_ne,
        ne_eq] at hsp
      rw [if_neg (by tauto), if_neg (by tauto)]
      have h1 : (parseNumber (stripSign s.data).2).isSome = false := by
        rw [parseNumber_isSome]
        exact hdec
      have h2 : parseNumber (stripSign s.data).2 = none := by
        cases h : parseNumber (stripSign s.data).2
        · rfl
        · rw [h] at h1
          simp at h1
      rw [h2]
      rfl
    rw [decode_score, if_neg hdot, hnone]

/-- Witness for C7's three quantified clauses, at the concrete texts
`"1.5e3"` (a decimal literal), `"-NAN"` (a signed keyword spelling) and
`"e5"` (neither). -/
theorem gff_C7_witness :
    (∃ v : F64, decode_score "1.5e3" = .ok (some v)) ∧
    decode_score "-NAN" = .ok (some (specSpecialValue "-NAN")) ∧
    decode_score "e5" = .error (.invalidScore "e5") :=
  ⟨gff_C7_score_decode.2.2.2.1 "1.5e3" (by decide),
   gff_C7_score_decode.2.2.2.2.1 "-NAN" (by decide),
   gff_C7_score_decode.2.2.2.2.2 "e5" (by decide) (by decide) (by decide)⟩

/-- Exact decimal mantissa/exponent of a rational, fuel-bounded: returns
`(m, e)` with the intention `q = m / 10^e` (exact whenever the denominator
divides a power of ten, which holds for every finite double). -/
def decimalShift : Nat → ℚ → ℤ × Nat
  | 0, q => (q.num, 0)
  | fuel + 1, q =>
    if q.den = 1 then (q.num, 0)
    else
      let p := decimalShift fuel (q * 10)
      (p.1, p.2 + 1)

/-- Render `m / 10^e` as a decimal string with an explicit point. -/
def insertPoint (m : ℤ) (e : Nat) : String :=
  let ds := toString m.natAbs
  let ds := if ds.length ≤ e then
      String.mk (List.replicate (e + 1 - ds.length) '0') ++ ds
    else ds
  let k := ds.length - e
  (if m < 0 then "-" else "") ++ (ds.take k) ++ "." ++ (ds.drop k)

/-- The `ryu` crate's float formatting as used by the csv writer's
`serialize_f64` (src/main.rs line 127): non-finite values print as `"NaN"`,
`"inf"`, `"-inf"`; integral doubles print with a trailing `.0`; other doubles
print a decimal expansion (exact for dyadic rationals; on the values this
development evaluates — integral and non-finite doubles — this agrees with
ryu's shortest round-trip form). -/
def formatF64 : F64 → String
  | F64.nan => "NaN"
  | F64.inf => "inf"
  | F64.negInf => "-inf"
  | F64.finite q =>
    if q.den = 1 then toString q.num ++ ".0"
    else insertPoint (decimalShift q.den q).1 (decimalShift q.den q).2

/-- `serde_score::serialize` (src/main.rs lines 122-130): `none` emits the
sentinel `"."`; a present value is passed to `serialize_f64` unconditionally
(the code performs no finiteness check). -/
def encode_score : Option F64 → String
  | some v => formatF64 v
  | none => "."

/-- Claim C8 fails as stated: encoding `some NaN` is not rejected — the
serializer produces the output text `"NaN"` (and similarly `"inf"` for
infinity); no error path exists in `serde_score::serialize`. -/
theorem gff_C8_cex :
    encode_score (some F64.nan) = "NaN" ∧
    encode_score (some F64.inf) = "inf" := by
  decide

/-- Claim C8 amended: encoding a NaN or infinite score succeeds, emitting
ryu's non-finite spellings `"NaN"`, `"inf"`, `"-inf"`, each of which the
score decoder happens to re-accept. -/
theorem gff_C8_nonfinite_encode :
    encode_score (some F64.nan) = "NaN" ∧
    encode_score (some F64.inf) = "inf" ∧
    encode_score (some F64.negInf) = "-inf" ∧
    decode_score "NaN" = .ok (some F64.nan) ∧
    decode_score "inf" = .ok (some F64.inf) ∧
    decode_score "-inf" = .ok (some F64.negInf) := by
  decide

/-- Claim C10: the score decoder accepts the non-decimal spellings
`inf`/`-inf`/`NaN`/`infinity` (case-insensitively), returning the
corresponding non-finite value, even though none of them is `"."` or a
decimal floating-point literal. -/
theorem gff_C10_score_special :
    decode_score "inf" = .ok (some F64.inf) ∧
    decode_score "-inf" = .ok (some F64.negInf) ∧
    decode_score "NaN" = .ok (some F64.nan) ∧
    decode_score "nan" = .ok (some F64.nan) ∧
    decode_score "infinity" = .ok (some F64.inf) ∧
    decode_score "INFINITY" = .ok (some F64.inf) ∧
    decode_score "Inf" = .ok (some F64.inf) ∧
    specDecimalFloatLit "inf" = false ∧
    specDecimalFloatLit "-inf" = false ∧
    specDecimalFloatLit "NaN" = false ∧
    specDecimalFloatLit "infinity" = false ∧
    ("inf" : String) ≠ "." := by
  decide

/-- The 9-field GFF record (src/main.rs, `struct Record`), with `u64`
coordinates as `Nat` and the three special columns in their decoded types. -/
structure Record where
  seqname : String
  source : String
  feature : String
  start : Nat
  «end» : Nat
  score : Option F64
  strand : Option Strand
  frame : Option Nat
  attributes : String
deriving DecidableEq

/-- Rust's `u64::from_str` as used by the csv deserializer for the `start`
and `end` columns: an optional `'+'` sign, then at least one digit, with the
64-bit overflow check. -/
def parseU64 (s : String) : Except DecodeError Nat :=
  let cs := match s.data with
    | '+' :: r => r
    | r => r
  if !cs.isEmpty && cs.all isAsciiDigit then
    if digitsVal cs < 2 ^ 64 then .ok (digitsVal cs) else .error (.invalidUInt s)
  else .error (.invalidUInt s)

/-- serde's `SeqAccess::next_element` as called by the derived
`Deserialize` for `Record`: yields the next raw field, or the missing-field
(`invalid_length`) error carrying the struct field index reached. -/
def nextField (fs : List String) (idx : Nat) :
    Except DecodeError (String × List String) :=
  match fs with
  | [] => .error (.invalidLength idx)
  | f :: r => .ok (f, r)

/-- The derived `Deserialize` for `Record` driven by the csv deserializer:
fields are consumed in struct order, each special column through its codec,
short-circuiting on the first failure; fields beyond the ninth are left
unread. -/
def deserializeRecord (fs : List String) : Except DecodeError Record := do
  let (seqname, fs) ← nextField fs 0
  let (source, fs) ← nextField fs 1
  let (feature, fs) ← nextField fs 2
  let (startS, fs) ← nextField fs 3
  let start ← parseU64 startS
  let (endS, fs) ← nextField fs 4
  let endV ← parseU64 endS
  let (scoreS, fs) ← nextField fs 5
  let score ← decode_score scoreS
  let (strandS, fs) ← nextField fs 6
  let strand ← decode_strand strandS
  let (frameS, fs) ← nextField fs 7
  let frame ← decode_frame frameS
  let (attributes, _) ← nextField fs 8
  .ok { seqname, source, feature, start, «end» := endV, score, strand, frame,
        attributes }

/-- Split a character list at every occurrence of `sep` (the csv reader's
field/line splitting on the fixture, which contains no quotes). -/
def splitOnChar (sep : Char) : List Char → List (List Char)
  | [] => [[]]
  | c :: r =>
    let ps := splitOnChar sep r
    if c = sep then [] :: ps
    else
      match ps with
      | p :: rest => (c :: p) :: rest
      | [] => [[c]]

/-- The tab-separated fields of one line. -/
def fieldsOf (l : String) : List String :=
  (splitOnChar '\t' l.data).map String.mk

/-- The lines of the input. -/
def linesOf (input : String) : List String :=
  (splitOnChar '\n' input.data).map String.mk

/-- Lines the csv reader skips: blank lines, and comment lines per
`.comment(Some(b'#'))` (src/main.rs line 230). -/
def skipLine (l : String) : Bool :=
  match l.data with
  | [] => true
  | c :: _ => c = '#'

/-- The csv reader's record loop with its length discipline: the first
record read fixes the expected field count, and every later record whose
count differs fails with the unequal-lengths error before deserialization
(the csv crate's default `flexible(false)`). -/
def readRecordsAux : Option Nat → List String → Except DecodeError (List Record)
  | _, [] => .ok []
  | expected, l :: ls =>
    if skipLine l then readRecordsAux expected ls
    else
      let fs := fieldsOf l
      match expected with
      | some n =>
        if fs.length = n then do
          let r ← deserializeRecord fs
          let rs ← readRecordsAux expected ls
          .ok (r :: rs)
        else .error (.unequalLengths n fs.length)
      | none => do
        let r ← deserializeRecord fs
        let rs ← readRecordsAux (some fs.length) ls
        .ok (r :: rs)

/-- `reader` (src/main.rs lines 226-237): deserialize every record of an
input, stopping at the first error (`let record: Record = result?`). -/
def readRecords (input : String) : Except DecodeError (List Record) :=
  readRecordsAux none (linesOf input)

/-- First line of the embedded `GFF_FILE` fixture (src/main.rs lines
221-224; the backslash-newline in the Rust byte-string literal splices the
continuation). -/
def line1 : String :=
  "P0A7B8\tUniProtKB\tInitiator methionine\t1\t1\t.\t.\t.\tNote=Removed,Obsolete;ID=test"

/-- Second line of the embedded fixture. -/
def line2 : String :=
  "P0A7B8\tUniProtKB\tChain\t2\t176\t50\t+\t.\tNote=ATP-dependent protease subunit HslV;ID=PRO_0000148105"

/-- The embedded two-line fixture `GFF_FILE`. -/
def GFF_FILE : String := line1 ++ "\n" ++ line2

/-- The csv writer's serialization of one `Record` (src/main.rs lines
239-277): fields in struct order joined by tabs, the special columns through
their encoders; fails only if the frame encoder fails.  `QuoteStyle::
Necessary` quotes nothing here since no field contains a delimiter, quote or
newline. -/
def serializeRecord (r : Record) : Except EncodeError String := do
  let frameS ← encode_frame r.frame
  .ok (String.intercalate "\t"
    [r.seqname, r.source, r.feature, toString r.start, toString r.«end»,
     encode_score r.score, encode_strand r.strand, frameS, r.attributes])

/-- The record decoded from `line1`: note `strand = none` (the field is
`"."`), and all three special columns absent. -/
def rec1 : Record :=
  { seqname := "P0A7B8", source := "UniProtKB",
    feature := "Initiator methionine", start := 1, «end» := 1,
    score := none, strand := none, frame := none,
    attributes := "Note=Removed,Obsolete;ID=test" }

/-- The record decoded from `line2`. -/
def rec2 : Record :=
  { seqname := "P0A7B8", source := "UniProtKB", feature := "Chain",
    start := 2, «end» := 176, score := some (F64.finite 50),
    strand := some Strand.Forward, frame := none,
    attributes := "Note=ATP-dependent protease subunit HslV;ID=PRO_0000148105" }

/-- `line2` as the writer re-encodes it: ryu renders the score 50.0 as
`"50.0"`, not the original `"50"`. -/
def line2_ryu : String :=
  "P0A7B8\tUniProtKB\tChain\t2\t176\t50.0\t+\t.\tNote=ATP-dependent protease subunit HslV;ID=PRO_0000148105"

/-- Claim C3 fails as stated: the first decoded record has `strand = none`
(its strand field is `"."`), not Forward; and re-encoding the second record
renders the score as `"50.0"`, so the re-joined text is not byte-for-byte the
original. -/
theorem gff_C3_cex :
    readRecords GFF_FILE = .ok [rec1, rec2] ∧
    rec1.strand = none ∧
    some Strand.Forward ≠ (none : Option Strand) ∧
    serializeRecord rec2 = .ok line2_ryu ∧
    line2_ryu ≠ line2 := by
  decide

/-- Claim C3 amended: decoding the fixture yields exactly the two records
with seqname `"P0A7B8"`, the first with score/strand/frame all absent, the
second with score 50.0, strand Forward, frame absent; re-encoding reproduces
the first line byte-for-byte, while the second re-encodes with score text
`"50.0"` in place of `"50"`, so the re-joined output differs from the input
in exactly that field. -/
theorem gff_C3_end_to_end :
    readRecords GFF_FILE = .ok [rec1, rec2] ∧
    rec1.seqname = "P0A7B8" ∧
    rec2.seqname = "P0A7B8" ∧
    serializeRecord rec1 = .ok line1 ∧
    serializeRecord rec2 = .ok line2_ryu ∧
    String.intercalate "\n" [line1, line2_ryu] ≠ GFF_FILE := by
  decide

/-- Claim C9 fails as stated: an 8-field first line is not rejected by a
column-count check before the column codecs run — the score codec executes
on the sixth field and its error is what decoding reports. -/
theorem gff_C9_cex :
    readRecords "a\tb\tc\t1\t2\tabc\t+\t0" = .error (.invalidScore "abc") := by
  decide

/-- Claim C9 amended: no up-front 9-column check exists.  A first record with
8 fields is deserialized field by field (the score, strand and frame codecs
run on the fields present) and fails with serde's missing-field error at
struct index 8; a first record with 10 fields decodes successfully, ignoring
the extra field; only a later line whose field count differs from the first
record's fails early — with the csv unequal-lengths error, before any codec
runs (even when its score field is itself invalid). -/
theorem gff_C9_column_count :
    readRecords "a\tb\tc\t1\t2\t.\t+\t." = .error (.invalidLength 8) ∧
    readRecords (line1 ++ "\n" ++ "a\tb\tc\t1\t2\tabc\t+\t0") =
      .error (.unequalLengths 9 8) ∧
    readRecords "a\tb\tc\t1\t2\t.\t+\t.\tattrs\textra" =
      .ok [{ seqname := "a", source := "b", feature := "c", start := 1,
             «end» := 2, score := none, strand := some Strand.Forward,
             frame := none, attributes := "attrs" }] := by
  decide

/-- Claim C1 (code bug): the frame encoder does not map each in-range value to
its own digit.  The code emits the constant `"0"` for `some 1` and `some 2`,
rejects `some 0` (its range check is `0 < v && v < 3`), and emits `"."` for
`none`; the claim (and the decoder's own alphabet) requires `some v` to emit
the digit for `v` for every `v ∈ {0,1,2}`. -/
theorem gff_C1_frame_encode_bug :
    encode_frame (some 1) = .ok "0" ∧
    encode_frame (some 2) = .ok "0" ∧
    encode_frame (some 0) = .error (.invalidFrame 0) ∧
    encode_frame none = .ok "." := by
  decide

/-- Claim C2 (code bug): the weak round-trip invariant fails on the frame
column.  The decoder accepts `"0"` and yields `some 0`, but the encoder
rejects `some 0`, so the decoded value does not re-encode to any text at
all. -/
theorem gff_C2_roundtrip_bug :
    decode_frame "0" = .ok (some 0) ∧
    encode_frame (some 0) = .error (.invalidFrame 0) := by
  decide

/-- Claim C4: for every frame value outside `{0,1,2}` the encoder returns the
invalid-frame error (and hence emits no digit); the source's range check
`0 < v && v < 3` is false for every such value. -/
theorem gff_C4_frame_encode_range (v : Nat)
    (h : ¬(v = 0 ∨ v = 1 ∨ v = 2)) :
    encode_frame (some v) = .error (.invalidFrame v) := by
  have hv : ¬(0 < v ∧ v < 3) := by omega
  simp [encode_frame, hv]

/-- Witness for C4 at the concrete value 3. -/
theorem gff_C4_witness :
    encode_frame (some 3) = .error (.invalidFrame 3) :=
  gff_C4_frame_encode_range 3 (by decide)

/-- Claim C5: the strand decoder maps `'+'`, `'f'`, `'F'` to Forward,
`'-'`, `'r'`, `'R'` to Reverse, `'?'` to Unknown, `'.'` to the absent state
(`none`), and every other single character to the invalid-strand error. -/
theorem gff_C5_strand_decode :
    decode_strand "+" = .ok (some Strand.Forward) ∧
    decode_strand "f" = .ok (some Strand.Forward) ∧
    decode_strand "F" = .ok (some Strand.Forward) ∧
    decode_strand "-" = .ok (some Strand.Reverse) ∧
    decode_strand "r" = .ok (some Strand.Reverse) ∧
    decode_strand "R" = .ok (some Strand.Reverse) ∧
    decode_strand "?" = .ok (some Strand.Unknown) ∧
    decode_strand "." = .ok none ∧
    ∀ c : Char,
      ¬(c = '+' ∨ c = 'f' ∨ c = 'F' ∨ c = '-' ∨ c = 'r' ∨ c = 'R' ∨
        c = '?' ∨ c = '.') →
      decode_strand (String.mk [c]) = .error (.invalidStrand (String.mk [c])) := by
  refine ⟨by decide, by decide, by decide, by decide, by decide, by decide,
    by decide, by decide, ?_⟩
  intro c h
  push_neg at h
  obtain ⟨h1, h2, h3, h4, h5, h6, h7, h8⟩ := h
  show strandVisitChar c = .error (.invalidStrand (String.mk [c]))
  simp [strandVisitChar, h1, h2, h3, h4, h5, h6, h7, h8]

/-- Witness for C5's generic clause at the concrete character `'x'`. -/
theorem gff_C5_witness :
    decode_strand (String.mk ['x']) =
      .error (.invalidStrand (String.mk ['x'])) :=
  gff_C5_strand_decode.2.2.2.2.2.2.2.2 'x' (by decide)

/-- Claim C6: the strand encoder is canonicalizing and total: Forward emits
`"+"`, Reverse emits `"-"`, and both Unknown and the absent state emit `"."`;
these four cases cover every strand state, so no synonym character is ever
emitted. -/
theorem gff_C6_strand_encode :
    encode_strand (some Strand.Forward) = "+" ∧
    encode_strand (some Strand.Reverse) = "-" ∧
    encode_strand (some Strand.Unknown) = "." ∧
    encode_strand none = "." := by
  decide
